import Mathlib

/-!
# Verification of the Jrai-Vietnamese dictionary application

Shallow embedding of the core logic of the `tra-tu-nhanh-jv-v3.2` repository:
text normalization, dictionary search, quiz generation and grading, PCM audio
decoding, and the speech playback controller. JavaScript strings are modelled
as lists of Unicode code points (all text involved lies in the Basic
Multilingual Plane, so code points coincide with UTF-16 code units).

The embedded functions follow `src/App.tsx` (revision v3.2 is the first
document in that file, a second revision follows the document separator) and
the revisions in `src/unnamed/part_001` and `src/unnamed/part_002`.
-/

namespace JraiViet

/-- JavaScript strings as lists of Unicode code points. -/
abbrev Str := List Nat

/-- Convert a Lean string literal to its code-point list. -/
def ofString (s : String) : Str := s.toList.map Char.toNat

/-- Whitespace code points recognised by JavaScript `String.prototype.trim`
(ASCII whitespace, NBSP, BOM, and the Unicode space separators). -/
def isWs (c : Nat) : Bool :=
  c == 0x9 || c == 0xA || c == 0xB || c == 0xC || c == 0xD || c == 0x20 ||
  c == 0xA0 || c == 0x1680 || (0x2000 ≤ c && c ≤ 0x200A) || c == 0x2028 ||
  c == 0x2029 || c == 0x202F || c == 0x205F || c == 0x3000 || c == 0xFEFF

/-- `String.prototype.trim`: drop leading and trailing whitespace. -/
def trim (s : Str) : Str :=
  ((s.dropWhile isWs).reverse.dropWhile isWs).reverse

/-- Single-character case folding of JavaScript `String.prototype.toLowerCase`
on the code points exercised here: ASCII `A`-`Z` and the Latin-1 uppercase
letters map down by 0x20; other code points are unchanged. -/
def toLowerChar (c : Nat) : Nat :=
  if 0x41 ≤ c && c ≤ 0x5A then c + 0x20
  else if 0xC0 ≤ c && c ≤ 0xDE && c ≠ 0xD7 then c + 0x20
  else c

/-- `String.prototype.toLowerCase`, applied code point by code point. -/
def toLower (s : Str) : Str := s.map toLowerChar

/-- The combining diacritical marks block `U+0300`-`U+036F` matched by the
source regex `/[̀-ͯ]/g`. -/
def isCombiningMark (c : Nat) : Bool := 0x300 ≤ c && c ≤ 0x36F

/-- Modelled fragment of the Unicode NFD canonical decomposition
(`String.prototype.normalize("NFD")`): the canonical decompositions of the
precomposed Latin letters exercised in this development (the A-family of
Vietnamese letters, including `Ă` = `U+0102` which decomposes to `A` followed
by combining breve `U+0306`); identity on code points without a canonical
decomposition among those exercised. -/
def nfdChar (c : Nat) : List Nat :=
  if c = 0xC0 then [0x41, 0x300]        -- A grave
  else if c = 0xC1 then [0x41, 0x301]   -- A acute
  else if c = 0xC2 then [0x41, 0x302]   -- A circumflex
  else if c = 0xC3 then [0x41, 0x303]   -- A tilde
  else if c = 0xE0 then [0x61, 0x300]   -- a grave
  else if c = 0xE1 then [0x61, 0x301]   -- a acute
  else if c = 0xE2 then [0x61, 0x302]   -- a circumflex
  else if c = 0xE3 then [0x61, 0x303]   -- a tilde
  else if c = 0x102 then [0x41, 0x306]  -- A breve
  else if c = 0x103 then [0x61, 0x306]  -- a breve
  else [c]

/-- `String.prototype.normalize("NFD")` on the modelled fragment. -/
def nfd (s : Str) : Str := s.flatMap nfdChar

/-- `str.replace(/[̀-ͯ]/g, "")`: remove combining marks. -/
def stripMarks (s : Str) : Str := s.filter (fun c => !isCombiningMark c)

/-- The app's normalizer (identical in every revision):
`str.normalize("NFD").replace(/[̀-ͯ]/g, "").toLowerCase().trim()`. -/
def normalize (s : Str) : Str := trim (toLower (stripMarks (nfd s)))

/-- Does `hay` start with `needle`? (building block for JS `includes`). -/
def leadsWith : Str → Str → Bool
  | [], _ => true
  | _ :: _, [] => false
  | a :: as, b :: bs => a == b && leadsWith as bs

/-- JavaScript `hay.includes(needle)`: contiguous substring test. -/
def hasSubstr (needle : Str) : Str → Bool
  | [] => needle.isEmpty
  | c :: rest => leadsWith needle (c :: rest) || hasSubstr needle rest

/-- `WordEntry` from `src/types.ts`: Jrai headword, Vietnamese gloss, and an
optional base64 audio payload. -/
structure WordEntry where
  jrai : Str
  viet : Str
  audio : Option Str := Option.none
deriving DecidableEq

/-- The dictionary: an association from normalized key to entry
(`Dictionary = Record<string, WordEntry>` from `src/types.ts`), modelled as a
list of key-entry pairs; key uniqueness is a hypothesis where it matters. -/
abbrev DictL := List (Str × WordEntry)

/-- `questionSide: 'jrai' | 'viet'` from the `QuizItem` interface. -/
inductive Side where
  | jrai
  | viet
deriving DecidableEq

/-- `status: 'none' | 'correct' | 'wrong'` from the `QuizItem` interface. -/
inductive Status where
  | none
  | correct
  | wrong
deriving DecidableEq

/-- `QuizItem` from `src/App.tsx`: a `WordEntry` extended with quiz state. -/
structure QuizItem where
  jrai : Str
  viet : Str
  audio : Option Str := Option.none
  questionSide : Side
  userInput : Str
  status : Status
  isTesting : Bool
deriving DecidableEq

/-- The grading step of `checkResults` (`src/App.tsx` v3.2, lines 124-132)
applied to one item: the target is the side opposite `questionSide`, and the
status becomes `correct` exactly when the normalized input equals the
normalized target. Note this revision grades every item, with no
`isTesting` guard. -/
def checkItem (it : QuizItem) : QuizItem :=
  let target := if it.questionSide = Side.jrai then it.viet else it.jrai
  { it with
    status := if normalize it.userInput = normalize target
              then Status.correct else Status.wrong }

/-- `checkResults` (`src/App.tsx` v3.2): grade the whole batch. -/
def checkResults (items : List QuizItem) : List QuizItem :=
  items.map checkItem

/-- One item of `handleCheckAll` (second revision in `src/App.tsx`, lines
551-558) and of `handleCheckResults` (`src/unnamed/part_001`, lines 190-197):
identical to `checkItem` except that a non-testing item is returned
unchanged (`if (!item.isTesting) return item;`). -/
def handleCheckAllItem (it : QuizItem) : QuizItem :=
  if !it.isTesting then it
  else
    let target := if it.questionSide = Side.jrai then it.viet else it.jrai
    { it with
      status := if normalize it.userInput = normalize target
                then Status.correct else Status.wrong }

/-- `handleCheckAll` / `handleCheckResults`: grade the whole batch, leaving
non-testing items unchanged. -/
def handleCheckAll (items : List QuizItem) : List QuizItem :=
  items.map handleCheckAllItem

/-- The `exact` filter of `getFilteredResults` (`src/App.tsx` v3.2, lines
134-144), over the entry values of the dictionary: entries whose normalized
headword or gloss equals the normalized query. -/
def exactMatches (dict : List WordEntry) (q : Str) : List WordEntry :=
  dict.filter (fun w => normalize w.jrai == normalize q || normalize w.viet == normalize q)

/-- The `fuzzy` filter of `getFilteredResults`: entries whose normalized
headword or gloss contains the normalized query as a substring. -/
def fuzzyMatches (dict : List WordEntry) (q : Str) : List WordEntry :=
  dict.filter (fun w =>
    hasSubstr (normalize q) (normalize w.jrai) || hasSubstr (normalize q) (normalize w.viet))

/-- `getFilteredResults` (`src/App.tsx` v3.2, lines 134-144, identical in
`src/unnamed/part_002`): empty result when the trimmed query is empty,
otherwise the exact matches, falling back to substring matches only when no
exact match exists. -/
def getFilteredResults (dict : List WordEntry) (query : Str) : List WordEntry :=
  let q := trim query
  if q.isEmpty then []
  else
    let exact := exactMatches dict q
    if exact.isEmpty then fuzzyMatches dict q else exact

/-- `getFiltered` (`src/unnamed/part_001`, lines 208-214): exact-match-only
search; empty result when the trimmed query is empty. -/
def getFiltered (dict : List WordEntry) (query : Str) : List WordEntry :=
  if (trim query).isEmpty then []
  else
    let q := normalize query
    dict.filter (fun w => normalize w.jrai == q || normalize w.viet == q)

/-- Reassemble one signed 16-bit little-endian sample from two bytes, as the
`Int16Array` view in `pcmToBuffer` does on a little-endian platform. -/
def toInt16 (lo hi : Nat) : Int :=
  let u := lo % 256 + 256 * (hi % 256)
  if u < 32768 then (u : Int) else (u : Int) - 65536

/-- The full `Int16Array(data.buffer)` view: consecutive byte pairs become
little-endian signed 16-bit values (a trailing odd byte never reaches this
function: the `Int16Array` constructor throws on odd buffer lengths, which
`pcmToBuffer` models with `Option.none`). -/
def toInt16LE : List Nat → List Int
  | [] => []
  | [_] => []
  | lo :: hi :: rest => toInt16 lo hi :: toInt16LE rest

/-- `pcmToBuffer` (`src/App.tsx` v3.2, lines 15-23; `decodePcmToBuffer` in the
second revision, and the mono instance of `decodeAudioData` in
`src/unnamed/part_001`): each 16-bit frame becomes the sample
`int16 / 32768.0`. Samples are dyadic rationals with denominator `2^15`, all
exactly representable as floats, so `ℚ` models the computation bit-exactly.
`Option.none` models the two throwing paths: the `Int16Array` constructor
throws `RangeError` on an odd-length buffer, and
`ctx.createBuffer(1, dataInt16.length, 24000)` throws `NotSupportedError`
when the frame count `dataInt16.length` is zero (the Web Audio API requires
at least one frame), i.e. on the empty byte buffer. -/
def pcmToBuffer (bytes : List Nat) : Option (List ℚ) :=
  if bytes.length % 2 = 0 then
    if bytes.length = 0 then Option.none
    else Option.some ((toInt16LE bytes).map (fun (v : Int) => (v : ℚ) / 32768))
  else Option.none

/-- Value of one base64 alphabet character (`A`-`Z`, `a`-`z`, `0`-`9`, `+`,
`/`). -/
def b64Val (c : Nat) : Nat :=
  if 0x41 ≤ c && c ≤ 0x5A then c - 0x41
  else if 0x61 ≤ c && c ≤ 0x7A then c - 0x61 + 26
  else if 0x30 ≤ c && c ≤ 0x39 then c - 0x30 + 52
  else if c = 0x2B then 62
  else if c = 0x2F then 63
  else 0

/-- Decode base64 groups of four characters into groups of three bytes, with
the standard handling of a short final group. -/
def b64Groups : List Nat → List Nat
  | c1 :: c2 :: c3 :: c4 :: rest =>
    let v1 := b64Val c1
    let v2 := b64Val c2
    let v3 := b64Val c3
    let v4 := b64Val c4
    (v1 * 4 + v2 / 16) :: ((v2 % 16) * 16 + v3 / 4) :: ((v3 % 4) * 64 + v4) ::
      b64Groups rest
  | [c1, c2, c3] =>
    let v1 := b64Val c1
    let v2 := b64Val c2
    let v3 := b64Val c3
    [v1 * 4 + v2 / 16, (v2 % 16) * 16 + v3 / 4]
  | [c1, c2] =>
    let v1 := b64Val c1
    let v2 := b64Val c2
    [v1 * 4 + v2 / 16]
  | _ => []

/-- `decodeBase64` (`src/App.tsx` v3.2, lines 6-13; `decodeBase64ToBytes` in
the second revision, `decode` in `src/unnamed/part_001`): `window.atob`
followed by reading each character code into a `Uint8Array`, i.e. standard
base64 decoding to a byte list. Padding `=` characters carry no data. -/
def decodeBase64 (s : Str) : List Nat :=
  b64Groups (s.filter (fun c => c ≠ 0x3D))

/-- Observable outcome of one `handlePlay` call: the `playing` flag right
after the handler returns, the sample buffer handed to the audio source (if
any), whether playback was started, and how many `alert` notices were
shown. -/
structure PlayOutcome where
  playing : Bool
  decoded : Option (List ℚ)
  started : Bool
  alerts : Nat
deriving DecidableEq

/-- `handlePlay` (`src/App.tsx` v3.2, lines 36-60): a call while already
playing is dropped; an absent (`null`) or empty synthesis response resets
`playing` and returns silently (`if (!base64) { setPlaying(false); return; }`);
otherwise the payload is decoded and playback starts. A decode error is
caught by the surrounding `try`/`catch`, which resets `playing`. -/
def handlePlayV32 (playing : Bool) (response : Option Str) : PlayOutcome :=
  if playing then ⟨true, Option.none, false, 0⟩
  else
    match response with
    | Option.none => ⟨false, Option.none, false, 0⟩
    | Option.some b64 =>
      if b64.isEmpty then ⟨false, Option.none, false, 0⟩
      else
        match pcmToBuffer (decodeBase64 b64) with
        | Option.none => ⟨false, Option.none, false, 0⟩
        | Option.some samples => ⟨true, Option.some samples, true, 0⟩

/-- `handlePlay` (`src/unnamed/part_001`, lines 61-86): identical control
flow, except that the absent-audio branch shows an alert
(`alert("Chưa cập nhật được âm thanh, ...")`) before resetting `playing`. -/
def handlePlayPart001 (playing : Bool) (response : Option Str) : PlayOutcome :=
  if playing then ⟨true, Option.none, false, 0⟩
  else
    match response with
    | Option.none => ⟨false, Option.none, false, 1⟩
    | Option.some b64 =>
      if b64.isEmpty then ⟨false, Option.none, false, 1⟩
      else
        match pcmToBuffer (decodeBase64 b64) with
        | Option.none => ⟨false, Option.none, false, 0⟩
        | Option.some samples => ⟨true, Option.some samples, true, 0⟩

/-- `dictionary[k]` for a key known to be present (quiz keys are drawn from
`Object.keys(dictionary)`, so the default is never reached there). -/
def entryAt (dict : DictL) (k : Str) : WordEntry :=
  ((dict.find? (fun kv => kv.1 == k)).map Prod.snd).getD ⟨[], [], Option.none⟩

/-- The fresh quiz item built by `refreshQuiz` for one drawn key: the entry's
fields spread into a `QuizItem` with empty input, status `none`, and
`isTesting = false`. -/
def mkQuizItem (e : WordEntry) (side : Side) : QuizItem :=
  { jrai := e.jrai, viet := e.viet, audio := e.audio, questionSide := side,
    userInput := [], status := Status.none, isTesting := false }

/-- `refreshQuiz` (`src/App.tsx` v3.2, lines 104-115):
`[...keys].sort(() => 0.5 - Math.random()).slice(0, 6)` followed by building a
quiz item per key. JavaScript `sort` always yields some permutation of the key
list, so the random shuffle is modelled by quantifying over the resulting
permutation `shuffled`; the per-item coin flips for `questionSide` are the
function `sides`. -/
def refreshQuiz (dict : DictL) (shuffled : List Str) (sides : Str → Side) :
    List QuizItem :=
  (shuffled.take 6).map (fun k => mkQuizItem (entryAt dict k) (sides k))

/-- `handleExport` (`src/App.tsx` v3.2, lines 148-166), parametrized by the
kept-entry predicate (in the source: key not present in
`DEFAULT_DICTIONARY`): when no entry satisfies the predicate the function
alerts and produces no document; otherwise the exported JSON document is the
filtered mapping. The JSON serialize/parse round trip is modelled as the
identity on dictionary documents. -/
def exportSubset (p : Str × WordEntry → Bool) (dict : DictL) : Option DictL :=
  let customWords := dict.filter p
  if customWords.isEmpty then Option.none else Option.some customWords

/-- The import handler (`src/App.tsx`, second revision, lines 796-809):
`setDictionary(JSON.parse(...))` replaces the whole dictionary with the
parsed document, ignoring the previous contents. -/
def importFrom (doc : DictL) (_old : DictL) : DictL := doc

/-! ## Concrete inputs used by the theorems below -/

/-- The entry `{jrai: "Aba", viet: "con ba ba"}` from the spec's examples. -/
def entryAba : WordEntry :=
  { jrai := ofString "Aba", viet := ofString "con ba ba" }

/-- An entry whose headword is a single combining grave accent `U+0300`; its
normalized headword is the empty string. Reachable via the add form (the
`if (j && v)` guard only rejects empty strings) or via JSON import. -/
def entryMark : WordEntry := { jrai := [0x300], viet := ofString "x" }

/-- Quiz item for the spec's grading example, input `"Con Ba Ba"`. -/
def abaCorrectItem : QuizItem :=
  { jrai := ofString "Aba", viet := ofString "con ba ba",
    questionSide := Side.jrai, userInput := ofString "Con Ba Ba",
    status := Status.none, isTesting := true }

/-- Quiz item for the spec's grading example, input `"con baba"`. -/
def abaWrongItem : QuizItem :=
  { jrai := ofString "Aba", viet := ofString "con ba ba",
    questionSide := Side.jrai, userInput := ofString "con baba",
    status := Status.none, isTesting := true }

/-- A non-testing quiz item with empty input and status `none`. -/
def c2Item : QuizItem :=
  { jrai := ofString "Aba", viet := ofString "con ba ba",
    questionSide := Side.jrai, userInput := [],
    status := Status.none, isTesting := false }

/-- One-entry search corpus for the search theorems. -/
def dictC3 : List WordEntry := [entryAba]

/-- One-entry search corpus containing the combining-mark headword. -/
def dictC10 : List WordEntry := [entryMark]

/-- One-entry keyed dictionary for the quiz and round-trip witnesses. -/
def dictW : DictL := [(ofString "aba", entryAba)]

/-- The keep-everything export predicate used by the round-trip witness. -/
def pW : Str × WordEntry → Bool := fun _ => true

/-! ## Theorems -/

/-- C1: for every quiz item in testing mode, grading sets the status to
CORRECT exactly when the normalized user input equals the normalized value on
the side opposite `questionSide`, and to WRONG otherwise (this holds for the
v3.2 `checkResults` step and coincides with `handleCheckAll` /
`handleCheckResults` on testing items); in particular, with
`questionSide = jrai`, headword `"Aba"`, gloss `"con ba ba"`, the input
`"Con Ba Ba"` grades CORRECT and the input `"con baba"` grades WRONG. -/
theorem c1_grading_correct_iff :
    (∀ it : QuizItem, it.isTesting = true →
      (checkItem it).status =
        (if normalize it.userInput =
            normalize (if it.questionSide = Side.jrai then it.viet else it.jrai)
         then Status.correct else Status.wrong) ∧
      handleCheckAllItem it = checkItem it) ∧
    (checkItem abaCorrectItem).status = Status.correct ∧
    (checkItem abaWrongItem).status = Status.wrong := by
  refine ⟨fun it h => ⟨rfl, ?_⟩, by decide, by decide⟩
  simp [handleCheckAllItem, checkItem, h]

/-- Witness for C1: the grading equation instantiated at the concrete
`"Con Ba Ba"` example item. -/
theorem c1_grading_witness :
    (checkItem abaCorrectItem).status =
      (if normalize abaCorrectItem.userInput =
          normalize (if abaCorrectItem.questionSide = Side.jrai
                     then abaCorrectItem.viet else abaCorrectItem.jrai)
       then Status.correct else Status.wrong) :=
  (c1_grading_correct_iff.1 abaCorrectItem rfl).1

/-- Counterexample for C2: the v3.2 `checkResults` has no `isTesting` guard,
so a batch holding one non-testing item (status `none`, empty input) is not
left unchanged by grading: the item's status is overwritten. -/
theorem c2_nonTesting_counterexample :
    c2Item.isTesting = false ∧ checkResults [c2Item] ≠ [c2Item] ∧
    (checkItem c2Item).status = Status.wrong := by decide

/-- C2 as amended: the `handleCheckAll` / `handleCheckResults` graders leave
non-testing items entirely unchanged; the v3.2 `checkResults` grader leaves
every field except `status` unchanged on every item (but may overwrite the
status of a non-testing item). -/
theorem c2_amended_frame :
    (∀ it : QuizItem, it.isTesting = false → handleCheckAllItem it = it) ∧
    (∀ it : QuizItem,
      (checkItem it).userInput = it.userInput ∧ (checkItem it).jrai = it.jrai ∧
      (checkItem it).viet = it.viet ∧ (checkItem it).audio = it.audio ∧
      (checkItem it).questionSide = it.questionSide ∧
      (checkItem it).isTesting = it.isTesting) := by
  constructor
  · intro it h
    simp [handleCheckAllItem, h]
  · intro it
    exact ⟨rfl, rfl, rfl, rfl, rfl, rfl⟩

/-- Witness for the amended C2: the concrete non-testing item passes through
`handleCheckAllItem` unchanged. -/
theorem c2_amended_frame_witness : handleCheckAllItem c2Item = c2Item :=
  c2_amended_frame.1 c2Item rfl

/-- Counterexample for C3: the query consisting of the single combining grave
accent `U+0300` normalizes to the empty string, yet `getFilteredResults` does
not return the empty result set: the trim guard passes (the mark is not
whitespace), no exact match exists, and the substring fallback
(`includes("")` is always true) returns the whole dictionary. -/
theorem c3_markOnly_counterexample :
    normalize [0x300] = [] ∧
    getFilteredResults dictC3 [0x300] = dictC3 ∧
    getFilteredResults dictC3 [0x300] ≠ [] := by decide

/-- C3 as amended: search returns the empty result set for every query whose
trimmed form is empty (the empty string and whitespace-only strings), in both
the v3.2 `getFilteredResults` and the `part_001` `getFiltered` variants; a
combining-mark-only query trims nonempty and is instead handed to the match
filters. -/
theorem c3_amended_empty_query (dict : List WordEntry) (q : Str)
    (h : trim q = []) :
    getFilteredResults dict q = [] ∧ getFiltered dict q = [] := by
  constructor
  · simp [getFilteredResults, h]
  · simp [getFiltered, h]

/-- Witness for the amended C3: the whitespace-only query `" "` yields the
empty result on the concrete corpus. -/
theorem c3_amended_empty_query_witness :
    getFilteredResults dictC3 (ofString " ") = [] :=
  (c3_amended_empty_query dictC3 (ofString " ") (by decide)).1

/-- Counterexample for C4: the claim states that `normalize("Ă")` and
`normalize("a")` are distinct; in fact they are equal, refuting the claim. -/
theorem c4_breve_counterexample :
    ¬ normalize (ofString "Ă") ≠ normalize (ofString "a") := by decide

/-- C4 as amended: `normalize("Ă") == normalize("a")` is true: NFD decomposes
`Ă` (U+0102) into the base letter `A` followed by the combining breve U+0306,
the breve lies in the stripped range U+0300-U+036F, and lowercasing the
remaining `A` gives exactly `"a"`. -/
theorem c4_amended_breve_folds :
    normalize (ofString "Ă") = ofString "a" ∧
    normalize (ofString "a") = ofString "a" ∧
    nfdChar 0x102 = [0x41, 0x306] ∧ isCombiningMark 0x306 = true := by decide

/-- Each byte pair contributes exactly one 16-bit frame: the frame count is
the byte count divided by two (rounding down; `pcmToBuffer` rejects odd
lengths before this matters). -/
theorem toInt16LE_length : (l : List Nat) → (toInt16LE l).length = l.length / 2
  | [] => by simp [toInt16LE]
  | [_] => by simp [toInt16LE]
  | _ :: _ :: rest => by
    have ih := toInt16LE_length rest
    simp only [toInt16LE, List.length_cons, ih]
    omega

/-- Counterexample for C5: the empty byte buffer is an even-length input,
yet the decoder produces no sample buffer at all: with zero 16-bit frames,
`ctx.createBuffer(1, 0, 24000)` throws `NotSupportedError` instead of
returning a buffer, refuting the claim's universal over all even-length
inputs. -/
theorem c5_empty_even_counterexample :
    ([] : List Nat).length % 2 = 0 ∧ pcmToBuffer [] = Option.none := by decide

/-- C5 as amended: for every nonempty even-length byte input, the audio
decoder produces exactly one sample per 16-bit little-endian frame, each
computed exactly as `int16 / 32768` with no resampling, clipping, or channel
remixing; the frame holding int16 value `16384` (bytes `00 40`) decodes to
`1/2` and the frame holding `-32768` (bytes `00 80`) decodes to `-1`. The
empty buffer instead throws `NotSupportedError` at `createBuffer` and yields
no sample buffer. -/
theorem c5_amended_pcm_decode :
    (∀ bytes : List Nat, bytes.length % 2 = 0 → bytes ≠ [] →
      pcmToBuffer bytes =
        Option.some ((toInt16LE bytes).map (fun (v : Int) => (v : ℚ) / 32768)) ∧
      ∀ samples, pcmToBuffer bytes = Option.some samples →
        samples.length = bytes.length / 2) ∧
    toInt16 0x00 0x40 = 16384 ∧
    pcmToBuffer [0x00, 0x40] = Option.some [(1 : ℚ) / 2] ∧
    toInt16 0x00 0x80 = -32768 ∧
    pcmToBuffer [0x00, 0x80] = Option.some [(-1 : ℚ)] := by
  refine ⟨?_, by decide, ?_, by decide, ?_⟩
  · intro bytes h hne
    have h0 : ¬ bytes.length = 0 := by
      simpa [List.length_eq_zero] using hne
    have hpcm : pcmToBuffer bytes =
        Option.some ((toInt16LE bytes).map (fun (v : Int) => (v : ℚ) / 32768)) := by
      rw [pcmToBuffer, if_pos h]
      exact if_neg h0
    refine ⟨hpcm, fun samples hs => ?_⟩
    rw [hpcm] at hs
    obtain rfl := (Option.some.inj hs).symm
    rw [List.length_map, toInt16LE_length]
  · show pcmToBuffer [0, 64] = Option.some [(1 : ℚ) / 2]
    rw [pcmToBuffer]
    norm_num [toInt16LE, toInt16]
  · show pcmToBuffer [0, 128] = Option.some [(-1 : ℚ)]
    rw [pcmToBuffer]
    norm_num [toInt16LE, toInt16]

/-- Witness for the amended C5: the decode equation instantiated at the
nonempty two-byte buffer `00 40`. -/
theorem c5_amended_pcm_decode_witness :
    pcmToBuffer [0x00, 0x40] =
      Option.some ((toInt16LE [0x00, 0x40]).map (fun (v : Int) => (v : ℚ) / 32768)) :=
  (c5_amended_pcm_decode.1 [0x00, 0x40] rfl (by decide)).1

/-- Counterexample for C6: decoding an empty byte buffer does not yield an
empty sample buffer: with zero 16-bit frames, `createBuffer(1, 0, 24000)`
throws `NotSupportedError` and no buffer is produced, refuting the claim's
second half. -/
theorem c6_empty_buffer_counterexample :
    decodeBase64 [] = [] ∧ pcmToBuffer [] = Option.none := by decide

/-- C6 as amended: an absent (`null`) or empty synthesis payload never
reaches the decoder: the playback handler resets `playing`, decodes nothing,
starts no playback and throws nothing into UI code, in both revisions.
Decoding an empty byte buffer does not yield an empty sample buffer: it
throws `NotSupportedError` at `createBuffer`; a decoder throw is contained by
the handler's `try`/`catch`, which likewise resets `playing` without
starting playback (exercised here on the payload `"QQ=="`, which decodes to
a single byte and makes the `Int16Array` constructor throw). -/
theorem c6_amended_contained :
    handlePlayV32 false Option.none = ⟨false, Option.none, false, 0⟩ ∧
    handlePlayV32 false (Option.some []) = ⟨false, Option.none, false, 0⟩ ∧
    (handlePlayPart001 false Option.none).decoded = Option.none ∧
    (handlePlayPart001 false Option.none).started = false ∧
    (handlePlayPart001 false Option.none).playing = false ∧
    pcmToBuffer [] = Option.none ∧
    decodeBase64 (ofString "QQ==") = [0x41] ∧
    handlePlayV32 false (Option.some (ofString "QQ==")) =
      ⟨false, Option.none, false, 0⟩ := by decide

/-- C7: whatever permutation the random shuffle produces, `refreshQuiz` draws
exactly `min 6 n` items, built from pairwise-distinct keys of the dictionary,
each item carrying the dictionary's entry at its key. -/
theorem c7_drawBatch (dict : DictL) (shuffled : List Str) (sides : Str → Side)
    (hkeys : (dict.map Prod.fst).Nodup)
    (hperm : shuffled.Perm (dict.map Prod.fst)) :
    (refreshQuiz dict shuffled sides).length = min 6 dict.length ∧
    ∃ ks : List Str, ks.Nodup ∧ ks.length = min 6 dict.length ∧
      (∀ k ∈ ks, k ∈ dict.map Prod.fst) ∧
      refreshQuiz dict shuffled sides =
        ks.map (fun k => mkQuizItem (entryAt dict k) (sides k)) := by
  have hlen : shuffled.length = dict.length := by
    simpa using hperm.length_eq
  have htake : (shuffled.take 6).length = min 6 dict.length := by
    simp [List.length_take, hlen]
  refine ⟨?_, shuffled.take 6, ?_, htake, ?_, rfl⟩
  · simpa [refreshQuiz] using htake
  · exact (hperm.nodup_iff.mpr hkeys).sublist (List.take_sublist 6 shuffled)
  · exact fun k hk => hperm.subset (List.take_subset 6 shuffled hk)

/-- Witness for C7: a one-entry dictionary with the identity shuffle draws
exactly `min 6 1 = 1` item. -/
theorem c7_drawBatch_witness :
    (refreshQuiz dictW [ofString "aba"] (fun _ => Side.jrai)).length =
      min 6 dictW.length :=
  (c7_drawBatch dictW [ofString "aba"] (fun _ => Side.jrai)
    (by decide) (List.Perm.refl _)).1

/-- Counterexample for C8: in the v3.2 `handlePlay`, an absent synthesis
response aborts the attempt and resets `playing`, but surfaces no
user-visible notice (`if (!base64) { setPlaying(false); return; }` shows no
alert), refuting the claim that a notice is always surfaced. -/
theorem c8_silent_counterexample :
    (handlePlayV32 false Option.none).playing = false ∧
    (handlePlayV32 false Option.none).started = false ∧
    (handlePlayV32 false Option.none).alerts = 0 := by decide

/-- C8 as amended: on an absent synthesis response both playback controllers
abort the attempt and return to IDLE without starting playback; the
`part_001` variant surfaces one user-visible alert, while the v3.2 variant
returns to IDLE silently. -/
theorem c8_amended_idle :
    (handlePlayPart001 false Option.none).playing = false ∧
    (handlePlayPart001 false Option.none).started = false ∧
    (handlePlayPart001 false Option.none).decoded = Option.none ∧
    (handlePlayPart001 false Option.none).alerts = 1 ∧
    (handlePlayV32 false Option.none).playing = false ∧
    (handlePlayV32 false Option.none).started = false ∧
    (handlePlayV32 false Option.none).decoded = Option.none ∧
    (handlePlayV32 false Option.none).alerts = 0 := by decide

/-- C9: whenever `exportSubset` produces a document, importing that document
replaces the dictionary (whatever it held before) with exactly the filtered
subset, and the result is permutation-invariant in the key order of the
source dictionary. -/
theorem c9_export_import_roundtrip (dict dict' old : DictL)
    (p : Str × WordEntry → Bool) (doc : DictL)
    (hexp : exportSubset p dict = Option.some doc)
    (hperm : dict.Perm dict') :
    importFrom doc old = dict.filter p ∧
    (importFrom doc old).Perm (dict'.filter p) := by
  have hdoc : doc = dict.filter p := by
    by_cases hempty : (dict.filter p).isEmpty
    · simp [exportSubset, hempty] at hexp
    · simp [exportSubset, hempty] at hexp
      exact hexp.symm
  subst hdoc
  exact ⟨rfl, hperm.filter p⟩

/-- Witness for C9: exporting the one-entry dictionary with the
keep-everything predicate and importing the document over an empty store
restores exactly the filtered subset. -/
theorem c9_export_import_roundtrip_witness :
    importFrom (dictW.filter pW) [] = dictW.filter pW :=
  (c9_export_import_roundtrip dictW dictW [] pW (dictW.filter pW)
    (by decide) (List.Perm.refl _)).1

/-- Counterexample for C10: for the query `" "` and a corpus whose only
entry has the combining-grave headword, the normalized query equals the
normalized headword (both empty), so an exact match exists in the claim's
sense, yet `getFilteredResults` returns the empty set: the trim guard fires
before the exact filter is consulted. -/
theorem c10_trim_guard_counterexample :
    normalize (ofString " ") = normalize entryMark.jrai ∧
    exactMatches dictC10 (trim (ofString " ")) = [entryMark] ∧
    getFilteredResults dictC10 (ofString " ") = [] := by decide

/-- C10 as amended: for every query whose trimmed form is nonempty, the
result set is exactly the set of exact matches whenever at least one exists,
and the substring fallback is consulted only when no exact match exists;
queries trimming to empty short-circuit to the empty result before either
filter runs. -/
theorem c10_amended_exact_precedence (dict : List WordEntry) (q : Str)
    (h : trim q ≠ []) :
    ((exactMatches dict (trim q)).isEmpty = false →
      getFilteredResults dict q = exactMatches dict (trim q)) ∧
    ((exactMatches dict (trim q)).isEmpty = true →
      getFilteredResults dict q = fuzzyMatches dict (trim q)) := by
  have hne : (trim q).isEmpty = false := by
    simpa [List.isEmpty_iff] using h
  constructor <;> intro hx <;> simp [getFilteredResults, hne, hx]

/-- Witness for the amended C10: the query `"aba"` has an exact match in the
one-entry corpus, and the search result is exactly the exact-match set. -/
theorem c10_amended_exact_precedence_witness :
    getFilteredResults dictC3 (ofString "aba") =
      exactMatches dictC3 (trim (ofString "aba")) :=
  (c10_amended_exact_precedence dictC3 (ofString "aba") (by decide)).1 (by decide)

end JraiViet
